import Mathlib

/-!
Verification of the `flightaware` Python client (`flightaware/client.py`).

The development shallowly embeds the module: Python values that flow through
the client (JSON-decoded responses, request parameters, `datetime` objects)
become the inductive type `PyValue`; functions that can raise become
`Except PyError`-valued functions; the environment's local time zone (used by
`datetime.fromtimestamp`) is passed as an explicit offset function; the HTTP
layer is an oracle: each client method takes the decoded JSON body the server
would reply with, and returns the list of HTTP requests it performed, its
outcome (returned value or raised exception), and the client state after the
call.
-/

namespace Flightaware

/-- A naive `datetime.datetime` value, represented by its signed day offset
from 1970-01-01 together with the second of the day and the microsecond.
Python stores calendar fields (year, month, day, ...), which are a bijective
re-coordinatization of this triple for valid dates; no verified claim
inspects year/month/day individually, only differences and equality, which
this coordinate system preserves. -/
structure PyDatetime where
  days : Int
  sod : Nat
  usec : Nat
deriving Repr, DecidableEq

/-- Python values that flow through the client: `None`, booleans, integers,
strings, lists, dicts (insertion-ordered string-keyed association lists, as
JSON decoding and the client produce), and naive `datetime` objects. -/
inductive PyValue where
  | none
  | bool (b : Bool)
  | int (n : Int)
  | str (s : String)
  | list (xs : List PyValue)
  | dict (fields : List (String × PyValue))
  | datetime (d : PyDatetime)
deriving Repr

/-- Exceptions the embedded code can raise. -/
inductive PyError where
  | valueError (msg : String)
  | typeError
  | keyError (k : String)
  | notImplementedError
deriving Repr, DecidableEq

/-- Python truthiness (`if val:`) for the values in the model. A `datetime`
object is always truthy. -/
def truthy : PyValue → Bool
  | .none => false
  | .bool b => b
  | .int n => n != 0
  | .str s => s != ""
  | .list xs => !xs.isEmpty
  | .dict fs => !fs.isEmpty
  | .datetime _ => true

/-- First value bound to key `k` in an insertion-ordered dict. -/
def lookupKey (fs : List (String × PyValue)) (k : String) : Option PyValue :=
  match fs with
  | [] => Option.none
  | (k2, v) :: rest => if k2 == k then some v else lookupKey rest k

/-- Key-membership test on a dict, as Python's `k in d`. -/
def hasKey (fs : List (String × PyValue)) (k : String) : Bool :=
  fs.any (fun p => p.1 == k)

/-- Dict item assignment `d[k] = v`: updates the binding in place if the key
exists, otherwise appends it (Python dicts preserve insertion order). -/
def setKey (fs : List (String × PyValue)) (k : String) (v : PyValue) :
    List (String × PyValue) :=
  match fs with
  | [] => [(k, v)]
  | (k2, v2) :: rest =>
    if k2 == k then (k2, v) :: rest else (k2, v2) :: setKey rest k v

/-- Key-membership for an arbitrary `PyValue` (false off dicts). -/
def pvHasKey (v : PyValue) (k : String) : Bool :=
  match v with
  | .dict fs => hasKey fs k
  | _ => false

/-- Whether a value is the string `k` (Python `==` between a string constant
and an arbitrary object: equal strings compare true, other types false). -/
def pvIsStr (v : PyValue) (k : String) : Bool :=
  match v with
  | .str s => s == k
  | _ => false

/-- Character-list prefix test (executable, kernel-reducible). -/
def isPrefixChars : List Char → List Char → Bool
  | [], _ => true
  | _ :: _, [] => false
  | a :: as, b :: bs => a == b && isPrefixChars as bs

/-- Character-list infix test, modelling Python's substring `in`. -/
def isInfixChars (n : List Char) : List Char → Bool
  | [] => n.isEmpty
  | b :: bs => isPrefixChars n (b :: bs) || isInfixChars n bs

/-- Python's `k in container` for a string key `k`: key membership on dicts,
element equality on lists, substring test on strings; `TypeError` on
non-iterables (`None`, booleans, integers, `datetime`s). -/
def pyContains (container : PyValue) (k : String) : Except PyError Bool :=
  match container with
  | .dict fs => .ok (hasKey fs k)
  | .list xs => .ok (xs.any (fun x => pvIsStr x k))
  | .str s => .ok (isInfixChars k.data s.data)
  | _ => .error .typeError

/-- Python's `container[k]` for a string key `k`: dict lookup (raising
`KeyError` when absent); `TypeError` on every other type, since lists and
strings reject string subscripts and the rest are not subscriptable. -/
def pyGetItem (container : PyValue) (k : String) : Except PyError PyValue :=
  match container with
  | .dict fs =>
    match lookupKey fs k with
    | some v => .ok v
    | Option.none => .error (.keyError k)
  | _ => .error .typeError

/-- Response-envelope normalization performed inside `Client._request`
(client.py lines 61-67): starting from the decoded body `result`, if
`"<method>Result" in result` then descend into it, and if `"data"` is in
that inner value then descend once more; otherwise return what is at hand. -/
def unwrapResponse (method : String) (result : PyValue) : Except PyError PyValue :=
  let key := method ++ "Result"
  match pyContains result key with
  | .error e => .error e
  | .ok false => .ok result
  | .ok true =>
    match pyGetItem result key with
    | .error e => .error e
    | .ok fin =>
      match pyContains fin "data" with
      | .error e => .error e
      | .ok false => .ok fin
      | .ok true => pyGetItem fin "data"

/-- EPOCH = datetime.datetime(1970, 1, 1) (client.py line 12). -/
def EPOCH : PyDatetime := ⟨0, 0, 0⟩

/-- Microseconds from 1970-01-01T00:00:00 (naive) to the datetime. -/
def datetimeTotalMicroseconds (d : PyDatetime) : Int :=
  (d.days * 86400 + d.sod) * 1000000 + d.usec

/-- A `datetime.timedelta`, normalized as Python keeps it:
`0 ≤ seconds < 86400` and `0 ≤ microseconds < 10^6`, with any sign carried
by `days`. -/
structure Timedelta where
  days : Int
  seconds : Int
  microseconds : Int
deriving Repr, DecidableEq

/-- Python datetime subtraction `a - b`, producing a normalized timedelta (floor
division, as Python normalizes). -/
def subDatetime (a b : PyDatetime) : Timedelta :=
  let u := datetimeTotalMicroseconds a - datetimeTotalMicroseconds b
  ⟨u / 86400000000, (u % 86400000000) / 1000000, u % 1000000⟩

/-- Total microseconds represented by a timedelta (`total_seconds()` is this
value divided by 10^6, as an exact rational). -/
def Timedelta.totalMicroseconds (t : Timedelta) : Int :=
  (t.days * 86400 + t.seconds) * 1000000 + t.microseconds

/-- Truncation `int(td.total_seconds())` evaluated in exact rational
arithmetic: t-division of the microsecond total by `10^6` (Python's `int()`
truncates toward zero). The program evaluates `total_seconds()` in
IEEE-double arithmetic; `intFloatTotalSeconds` below models that
bit-faithfully, and the two agree exactly whenever the quotient is a
representable double — in particular on every whole-second datetime Python
can represent (magnitude below `2^53` seconds) — but can differ by one for
sub-second datetimes far from the epoch. -/
def intTotalSeconds (t : Timedelta) : Int :=
  Int.tdiv t.totalMicroseconds 1000000

/-- Embeds `to_unix_timestamp` (client.py lines 15-23): falsy inputs pass through as
`None`; truthy non-datetimes raise `ValueError`; a datetime is converted via
`int((val - EPOCH).total_seconds())`, here in exact arithmetic — see
`to_unix_timestamp_float` below for the bit-faithful IEEE-double semantics
of `total_seconds()`, which coincides with this on whole-second datetimes in
Python's representable range. -/
def to_unix_timestamp (val : PyValue) : Except PyError PyValue :=
  if truthy val then
    match val with
    | .datetime d => .ok (.int (intTotalSeconds (subDatetime d EPOCH)))
    | _ => .error (.valueError "input must be of type datetime")
  else
    .ok PyValue.none

/-- Embeds `datetime.datetime.fromtimestamp` on an integer timestamp: converts epoch
seconds to a naive datetime in the platform's local time zone, modelled by
the offset function `tz` (seconds east of UTC at a given epoch second). -/
def fromtimestampInt (tz : Int → Int) (n : Int) : PyDatetime :=
  let u := n + tz n
  ⟨u / 86400, (u % 86400).toNat, 0⟩

/-- Embeds `from_unix_timestamp` (client.py lines 26-27): delegates to
`datetime.fromtimestamp`, which requires a number (booleans being Python
ints) and otherwise raises `TypeError`. The local-zone offset function `tz`
is the environment input `fromtimestamp` implicitly reads. -/
def from_unix_timestamp (tz : Int → Int) (val : PyValue) : Except PyError PyValue :=
  match val with
  | .int n => .ok (.datetime (fromtimestampInt tz n))
  | .bool b => .ok (.datetime (fromtimestampInt tz (if b then 1 else 0)))
  | _ => .error .typeError

/-- Rounding of the rational `p / q` to the nearest integer, ties to even:
the rounding CPython's correctly-rounded big-integer true division applies
when it lands the quotient on the 53-bit mantissa grid. -/
def rhe (p q : Nat) : Nat :=
  if 2 * (p % q) < q then p / q
  else if q < 2 * (p % q) then p / q + 1
  else if p / q % 2 = 0 then p / q else p / q + 1

/-- Truncation toward zero of the IEEE-binary64 double nearest to `n / 10^6`
for positive `n`. The exponent `e = floor (log2 (n / 10^6))` lies in
`{a - 20, a - 19}` for `a = Nat.log2 n` because `2^19 < 10^6 < 2^20`, and is
picked by comparing `n * 2^19` against `10^6 * 2^a`; the 53-bit mantissa is
the round-half-even of the exact quotient on the grid `2^(e-52)`; the result
is then cut to an integer. Quotients of this shape are never subnormal
(`n ≥ 1` gives `n / 10^6 ≥ 10^-6`), and the overflow of doubles above
`2^1024` (where the program's `int()` would raise OverflowError) lies far
outside every datetime magnitude and is not modelled. -/
def floatTruncPos (n : Nat) : Nat :=
  let a := Nat.log2 n
  let e : Int :=
    if 1000000 * 2 ^ a ≤ n * 2 ^ 19 then (a : Int) - 19 else (a : Int) - 20
  if 52 ≤ e then
    rhe n (1000000 * 2 ^ (e - 52).toNat) * 2 ^ (e - 52).toNat
  else
    rhe (n * 2 ^ (52 - e).toNat) 1000000 / 2 ^ (52 - e).toNat

/-- Evaluation of `int(u / 10**6)` as CPython performs it on an exact
integer numerator `u`: true division of two ints returns the correctly
rounded (round-half-even) binary64 double of the exact quotient, and
`int()` truncates that double toward zero. -/
def intFloatDivMicros (N : Int) : Int :=
  if N = 0 then 0
  else if 0 < N then (floatTruncPos N.natAbs : Int)
  else -(floatTruncPos N.natAbs : Int)

/-- Bit-faithful `int(td.total_seconds())`: `total_seconds()` divides the
exact integer microsecond total by `10^6` in one IEEE-double division, and
`int()` truncates the resulting double. Compare `intTotalSeconds`, the
exact-rational evaluation: the two agree exactly when the quotient is a
representable double, which holds for every whole-second datetime Python
can represent, but not for every sub-second one. -/
def intFloatTotalSeconds (t : Timedelta) : Int :=
  intFloatDivMicros t.totalMicroseconds

/-- Embeds `to_unix_timestamp` (client.py lines 15-23) with the bit-faithful
IEEE-double semantics of `int((val - EPOCH).total_seconds())`. It differs
from `to_unix_timestamp` above only on datetimes whose microsecond total
makes the double division inside `total_seconds()` inexact. -/
def to_unix_timestamp_float (val : PyValue) : Except PyError PyValue :=
  if truthy val then
    match val with
    | .datetime d => .ok (.int (intFloatTotalSeconds (subDatetime d EPOCH)))
    | _ => .error (.valueError "input must be of type datetime")
  else
    .ok PyValue.none

/-- BASE_URL (client.py line 10). -/
def BASE_URL : String := "http://flightxml.flightaware.com/json/FlightXML2/"

/-- MAX_RECORD_LENGTH (client.py line 11). -/
def MAX_RECORD_LENGTH : Int := 15

/-- Executable `String.startsWith` over character lists. -/
def strStartsWith (s p : String) : Bool := isPrefixChars p.data s.data

/-- Executable `String.endsWith` over character lists. -/
def strEndsWith (s p : String) : Bool :=
  isPrefixChars p.data.reverse s.data.reverse

/-- POSIX `os.path.join(a, b)` for two components, as used to build the
request URL: an absolute `b` replaces `a`; otherwise a separator is inserted
unless `a` is empty or already ends with one. -/
def osPathJoin (a b : String) : String :=
  if strStartsWith b "/" then b
  else if a == "" || strEndsWith a "/" then a ++ b
  else a ++ "/" ++ b

/-- Embeds `requests.auth.HTTPBasicAuth(username, password)`. -/
structure HTTPBasicAuth where
  username : String
  password : String
deriving Repr, DecidableEq

/-- The client's state set by `Client.__init__`: the credential pair. The
`auth` and `headers` attributes are functions of it (see below). -/
structure ClientState where
  username : String
  api_key : String
deriving Repr, DecidableEq

namespace Client

/-- Attribute `self.auth` as built by `Client.__init__` (client.py line 50). -/
def auth (s : ClientState) : HTTPBasicAuth :=
  ⟨s.username, s.api_key⟩

/-- Attribute `self.headers` as built by `Client.__init__` (client.py lines 51-53). -/
def headers : List (String × String) :=
  [("Content-Type", "application/x-www-form-urlencoded")]

end Client

/-- One HTTP POST as issued by `requests.post` inside `Client._request`. -/
structure Request where
  url : String
  data : Option (List (String × PyValue))
  auth : HTTPBasicAuth
  headers : List (String × String)
deriving Repr

/-- The observable behavior of one client method call: the HTTP requests it
performed (in order), its outcome (`.ok` returned value or `.error` raised
exception), and the client state when the call ends. -/
structure MethodResult where
  requests : List Request
  outcome : Except PyError PyValue
  state : ClientState

namespace Client

/-- Embeds `Client._request` (client.py lines 55-67): builds the POST from the
joined URL, the form data, the stored basic-auth credentials and headers;
`response` stands for `r.json()`, the decoded reply the transport delivered;
the returned value is the unwrapped envelope. -/
def _request (s : ClientState) (method : String)
    (data : Option (List (String × PyValue))) (response : PyValue) :
    Request × Except PyError PyValue :=
  (⟨osPathJoin BASE_URL method, data, auth s, headers⟩,
   unwrapResponse method response)

/-- Wraps a single `_request` call into a `MethodResult` (the shape shared by
every implemented method that cannot fail before the POST). -/
def simpleCall (s : ClientState) (method : String)
    (data : Option (List (String × PyValue))) (response : PyValue) :
    MethodResult :=
  let p := _request s method data response
  ⟨[p.1], p.2, s⟩

/-- Embeds `Client.aircraft_type` (client.py lines 69-77). -/
def aircraft_type (s : ClientState) (atype : PyValue) (response : PyValue) :
    MethodResult :=
  simpleCall s "AircraftType" (some [("type", atype)]) response

/-- Embeds `Client.airline_flight_info` (client.py lines 79-89). -/
def airline_flight_info (s : ClientState) (fa_flight_id : PyValue)
    (response : PyValue) : MethodResult :=
  simpleCall s "AirlineFlightInfo" (some [("faFlightID", fa_flight_id)]) response

/-- Embeds `Client.airline_info` (client.py lines 123-130). -/
def airline_info (s : ClientState) (airline : PyValue) (response : PyValue) :
    MethodResult :=
  simpleCall s "AirlineInfo" (some [("airlineCode", airline)]) response

/-- Embeds `Client.airline_insight` (client.py lines 132-157). The source defaults
`report_type` to `AirlineInsightReportType.PERCENTAGE_SCHEDULED_ACTUALLY_FLOWN
= 2`; the model passes it explicitly. -/
def airline_insight (s : ClientState) (origin destination report_type : PyValue)
    (response : PyValue) : MethodResult :=
  simpleCall s "AirlineInsight"
    (some [("origin", origin), ("destination", destination),
      ("reportType", report_type)]) response

/-- Embeds `Client.airport_info` (client.py lines 159-183). -/
def airport_info (s : ClientState) (airport : PyValue) (response : PyValue) :
    MethodResult :=
  simpleCall s "AirportInfo" (some [("airportCode", airport)]) response

/-- Embeds `Client.all_airlines` (client.py lines 185-191). -/
def all_airlines (s : ClientState) (response : PyValue) : MethodResult :=
  simpleCall s "AllAirlines" Option.none response

/-- Embeds `Client.all_airports` (client.py lines 193-198). -/
def all_airports (s : ClientState) (response : PyValue) : MethodResult :=
  simpleCall s "AllAirports" Option.none response

/-- Embeds `Client.block_indent_check` (client.py lines 200-206). -/
def block_indent_check (s : ClientState) (ident : PyValue) (response : PyValue) :
    MethodResult :=
  simpleCall s "BlockIdentCheck" (some [("ident", ident)]) response

/-- Embeds `Client.count_airport_operations` (client.py lines 208-214). -/
def count_airport_operations (s : ClientState) (airport : PyValue)
    (response : PyValue) : MethodResult :=
  simpleCall s "CountAirportOperations" (some [("airport", airport)]) response

/-- Embeds `Client.count_all_enroute_airline_operations` (client.py lines 216-220). -/
def count_all_enroute_airline_operations (s : ClientState) (response : PyValue) :
    MethodResult :=
  simpleCall s "CountAllEnrouteAirlineOperations" Option.none response

/-- Embeds `Client.get_flight_id` (client.py lines 303-320): `to_unix_timestamp` may
raise `ValueError` while the form data is being built, in which case no POST
happens. -/
def get_flight_id (s : ClientState) (ident departure_datetime : PyValue)
    (response : PyValue) : MethodResult :=
  match to_unix_timestamp departure_datetime with
  | .error e => ⟨[], .error e, s⟩
  | .ok ts =>
    simpleCall s "GetFlightID"
      (some [("ident", ident), ("departureTime", ts)]) response

/-- Embeds `Client.metar` (client.py lines 347-356). -/
def metar (s : ClientState) (airport : PyValue) (response : PyValue) :
    MethodResult :=
  simpleCall s "Metar" (some [("airport", airport)]) response

/-- Embeds `Client.metar_ex` (client.py lines 358-369). -/
def metar_ex (s : ClientState) (airport : PyValue) (response : PyValue) :
    MethodResult :=
  simpleCall s "MetarEx" (some [("airport", airport)]) response

/-- Embeds `Client.ntaf` (client.py lines 371-378). -/
def ntaf (s : ClientState) (airport : PyValue) (response : PyValue) :
    MethodResult :=
  simpleCall s "NTaf" (some [("airport", airport)]) response

/-- Embeds `Client.taf` (client.py lines 380-387). Note the source posts to the
vendor method `"NTaf"`, not `"Taf"`. -/
def taf (s : ClientState) (airport : PyValue) (response : PyValue) :
    MethodResult :=
  simpleCall s "NTaf" (some [("airport", airport)]) response

/-- Embeds `Client.tail_owner` (client.py lines 413-421). -/
def tail_owner (s : ClientState) (ident : PyValue) (response : PyValue) :
    MethodResult :=
  simpleCall s "TailOwner" (some [("ident", ident)]) response

/-- Embeds `Client.zipcode_info` (client.py lines 423-430). -/
def zipcode_info (s : ClientState) (zipcode : PyValue) (response : PyValue) :
    MethodResult :=
  simpleCall s "ZipcodeInfo" (some [("zipcode", zipcode)]) response

end Client

/-- One iteration of the loop in `Client.airline_flight_schedules` (client.py
lines 118-120), in source statement order: read `item["departuretime"]`,
convert it, store it under `"departure_time"`, then the same for the arrival
pair. Non-dict items raise `TypeError` at the first subscript. -/
def augmentItem (tz : Int → Int) (item : PyValue) : Except PyError PyValue :=
  match item with
  | .dict fs =>
    match lookupKey fs "departuretime" with
    | Option.none => .error (.keyError "departuretime")
    | some dtv =>
      match from_unix_timestamp tz dtv with
      | .error e => .error e
      | .ok dep =>
        match lookupKey (setKey fs "departure_time" dep) "arrivaltime" with
        | Option.none => .error (.keyError "arrivaltime")
        | some atv =>
          match from_unix_timestamp tz atv with
          | .error e => .error e
          | .ok arr =>
            .ok (.dict (setKey (setKey fs "departure_time" dep) "arrival_time" arr))
  | _ => .error .typeError

/-- The loop of `Client.airline_flight_schedules` over a list of records:
each record is augmented in order; the first exception aborts the call. -/
def augmentAll (tz : Int → Int) : List PyValue → Except PyError (List PyValue)
  | [] => .ok []
  | x :: xs =>
    match augmentItem tz x with
    | .error e => .error e
    | .ok y =>
      match augmentAll tz xs with
      | .error e => .error e
      | .ok ys => .ok (y :: ys)

/-- Loop `for item in results` (client.py lines 118-121) on an arbitrary
unwrapped response: lists are traversed item by item; iterating a non-empty
dict yields string keys and a non-empty string yields characters, both of
which raise `TypeError` at the subscript in the loop body, while their empty
versions skip the loop and are returned unchanged; the rest are not iterable. -/
def augmentSchedules (tz : Int → Int) (results : PyValue) :
    Except PyError PyValue :=
  match results with
  | .list items =>
    match augmentAll tz items with
    | .error e => .error e
    | .ok ys => .ok (.list ys)
  | .dict fs => if fs.isEmpty then .ok (.dict fs) else .error .typeError
  | .str s => if s.data.isEmpty then .ok (.str s) else .error .typeError
  | _ => .error .typeError

namespace Client

/-- Embeds `Client.airline_flight_schedules` (client.py lines 91-121): converts the
two date bounds (either may raise `ValueError` before any POST), builds the
form data with `how_many` and `offset` passed through unvalidated, performs
the POST, unwraps the envelope, then derives `departure_time`/`arrival_time`
on every record. The source defaults `how_many` to `MAX_RECORD_LENGTH` and
`offset` to `0`; the model passes both explicitly. -/
def airline_flight_schedules (s : ClientState) (tz : Int → Int)
    (start_date end_date origin destination airline flight_number
      how_many offset : PyValue) (response : PyValue) : MethodResult :=
  match to_unix_timestamp start_date with
  | .error e => ⟨[], .error e, s⟩
  | .ok sd =>
    match to_unix_timestamp end_date with
    | .error e => ⟨[], .error e, s⟩
    | .ok ed =>
      let data := [("startDate", sd), ("endDate", ed), ("origin", origin),
        ("destination", destination), ("airline", airline),
        ("flightno", flight_number), ("howMany", how_many),
        ("offset", offset)]
      let p := _request s "AirlineFlightSchedules" (some data) response
      ⟨[p.1], match p.2 with
        | .error e => .error e
        | .ok results => augmentSchedules tz results, s⟩

/-- Embeds `Client.decode_flight_route` (client.py lines 222-223): stub. -/
def decode_flight_route (s : ClientState) : MethodResult :=
  ⟨[], .error .notImplementedError, s⟩

/-- Embeds `Client.decode_route` (client.py lines 225-226): stub. -/
def decode_route (s : ClientState) : MethodResult :=
  ⟨[], .error .notImplementedError, s⟩

/-- Embeds `Client.arrived` (client.py lines 228-242): stub; its parameters are
never read. -/
def arrived (s : ClientState) (airport how_many filter offset : PyValue) :
    MethodResult :=
  ⟨[], .error .notImplementedError, s⟩

/-- Embeds `Client.departed` (client.py lines 244-259): stub. -/
def departed (s : ClientState) (airport how_many filter offset : PyValue) :
    MethodResult :=
  ⟨[], .error .notImplementedError, s⟩

/-- Embeds `Client.enroute` (client.py lines 261-262): stub. -/
def enroute (s : ClientState) : MethodResult :=
  ⟨[], .error .notImplementedError, s⟩

/-- Embeds `Client.fleet_arrived` (client.py lines 264-265): stub. -/
def fleet_arrived (s : ClientState) : MethodResult :=
  ⟨[], .error .notImplementedError, s⟩

/-- Embeds `Client.fleet_scheduled` (client.py lines 267-268): stub. -/
def fleet_scheduled (s : ClientState) : MethodResult :=
  ⟨[], .error .notImplementedError, s⟩

/-- Embeds `Client.flight_info` (client.py lines 270-286): stub. -/
def flight_info (s : ClientState) (ident how_many : PyValue) : MethodResult :=
  ⟨[], .error .notImplementedError, s⟩

/-- Embeds `Client.flight_info_ex` (client.py lines 288-301): stub. -/
def flight_info_ex (s : ClientState) : MethodResult :=
  ⟨[], .error .notImplementedError, s⟩

/-- Embeds `Client.get_historical_track` (client.py lines 323-324): stub. -/
def get_historical_track (s : ClientState) : MethodResult :=
  ⟨[], .error .notImplementedError, s⟩

/-- Embeds `Client.get_last_track` (client.py lines 326-327): stub. -/
def get_last_track (s : ClientState) : MethodResult :=
  ⟨[], .error .notImplementedError, s⟩

/-- Embeds `Client.inbound_flight_info` (client.py lines 329-330): stub. -/
def inbound_flight_info (s : ClientState) : MethodResult :=
  ⟨[], .error .notImplementedError, s⟩

/-- Embeds `Client.in_flight_info` (client.py lines 332-333): stub. -/
def in_flight_info (s : ClientState) : MethodResult :=
  ⟨[], .error .notImplementedError, s⟩

/-- Embeds `Client.lat_lng_to_distance` (client.py lines 335-336): stub. -/
def lat_lng_to_distance (s : ClientState) : MethodResult :=
  ⟨[], .error .notImplementedError, s⟩

/-- Embeds `Client.lat_lng_to_heading` (client.py lines 338-339): stub. -/
def lat_lng_to_heading (s : ClientState) : MethodResult :=
  ⟨[], .error .notImplementedError, s⟩

/-- Embeds `Client.map_flight` (client.py lines 341-342): stub. -/
def map_flight (s : ClientState) : MethodResult :=
  ⟨[], .error .notImplementedError, s⟩

/-- Embeds `Client.map_flight_ex` (client.py lines 344-345): stub. -/
def map_flight_ex (s : ClientState) : MethodResult :=
  ⟨[], .error .notImplementedError, s⟩

/-- Embeds `Client.routes_between_airports` (client.py lines 389-390): stub. -/
def routes_between_airports (s : ClientState) : MethodResult :=
  ⟨[], .error .notImplementedError, s⟩

/-- Embeds `Client.routes_between_airports_ex` (client.py lines 392-393): stub. -/
def routes_between_airports_ex (s : ClientState) : MethodResult :=
  ⟨[], .error .notImplementedError, s⟩

/-- Embeds `Client.scheduled` (client.py lines 395-396): stub. -/
def scheduled (s : ClientState) : MethodResult :=
  ⟨[], .error .notImplementedError, s⟩

/-- Embeds `Client.search` (client.py lines 398-399): stub. -/
def search (s : ClientState) : MethodResult :=
  ⟨[], .error .notImplementedError, s⟩

/-- Embeds `Client.search_birdseye_in_flight` (client.py lines 401-402): stub. -/
def search_birdseye_in_flight (s : ClientState) : MethodResult :=
  ⟨[], .error .notImplementedError, s⟩

/-- Embeds `Client.search_birdseye_positions` (client.py lines 404-405): stub. -/
def search_birdseye_positions (s : ClientState) : MethodResult :=
  ⟨[], .error .notImplementedError, s⟩

/-- Embeds `Client.search_count` (client.py lines 407-408): stub. -/
def search_count (s : ClientState) : MethodResult :=
  ⟨[], .error .notImplementedError, s⟩

/-- Embeds `Client.set_maximum_result_sizes` (client.py lines 410-411): stub. -/
def set_maximum_result_sizes (s : ClientState) : MethodResult :=
  ⟨[], .error .notImplementedError, s⟩

/-- Embeds `Client.get_alerts` (client.py lines 432-433): stub. -/
def get_alerts (s : ClientState) : MethodResult :=
  ⟨[], .error .notImplementedError, s⟩

/-- Embeds `Client.delete_alert` (client.py lines 435-436): stub. -/
def delete_alert (s : ClientState) : MethodResult :=
  ⟨[], .error .notImplementedError, s⟩

/-- Embeds `Client.set_alert` (client.py lines 438-439): stub. -/
def set_alert (s : ClientState) : MethodResult :=
  ⟨[], .error .notImplementedError, s⟩

/-- Embeds `Client.register_alert_endpoint` (client.py lines 441-442): stub. -/
def register_alert_endpoint (s : ClientState) : MethodResult :=
  ⟨[], .error .notImplementedError, s⟩

end Client

/-- Constant `TrafficFilter.GA` (client.py line 36). -/
def TrafficFilter.GA : PyValue := .str "ga"

/-- Constant `TrafficFilter.AIRLINE` (client.py line 37). -/
def TrafficFilter.AIRLINE : PyValue := .str "airline"

/-- Constant `TrafficFilter.ALL` (client.py line 38). -/
def TrafficFilter.ALL : PyValue := .none

/-- Constants of `AirlineInsightReportType` (client.py lines 41-45). -/
def AirlineInsightReportType.ALTERNATE_ROUTE_POPULARITY : PyValue := .int 1

/-- Constant `AirlineInsightReportType.PERCENTAGE_SCHEDULED_ACTUALLY_FLOWN`. -/
def AirlineInsightReportType.PERCENTAGE_SCHEDULED_ACTUALLY_FLOWN : PyValue := .int 2

/-- Constant `AirlineInsightReportType.PASSENGER_LOAD_FACTOR_ACTUALLY_FLOWN`. -/
def AirlineInsightReportType.PASSENGER_LOAD_FACTOR_ACTUALLY_FLOWN : PyValue := .int 3

/-- Constant `AirlineInsightReportType.CARRIERS_BY_CARGO_WEIGHT`. -/
def AirlineInsightReportType.CARRIERS_BY_CARGO_WEIGHT : PyValue := .int 4

/-- The elements a returned value exposes as a sequence of records: the items
of a list, nothing otherwise. -/
def listElems : PyValue → List PyValue
  | .list xs => xs
  | _ => []

/-- The request shape the specification prescribes for a vendor call: URL by
plain concatenation onto the base (the base ends in a separator), the form
data, basic auth from the stored credentials, and the form-urlencoded
content type. -/
def vendorRequest (s : ClientState) (method : String)
    (d : Option (List (String × PyValue))) : Request :=
  ⟨BASE_URL ++ method, d, ⟨s.username, s.api_key⟩,
   [("Content-Type", "application/x-www-form-urlencoded")]⟩

/-! ## Helper lemmas -/

/-- Key membership agrees with lookup success. -/
lemma hasKey_eq_isSome (fs : List (String × PyValue)) (k : String) :
    hasKey fs k = (lookupKey fs k).isSome := by
  induction fs with
  | nil => rfl
  | cons p rest ih =>
    obtain ⟨k2, v⟩ := p
    cases h : (k2 == k) with
    | true => simp [hasKey, lookupKey, h]
    | false =>
      simp [hasKey, lookupKey, h]
      exact ih

/-- Looking up the key just assigned yields the assigned value. -/
lemma lookupKey_setKey_self (fs : List (String × PyValue)) (k : String)
    (v : PyValue) : lookupKey (setKey fs k v) k = some v := by
  induction fs with
  | nil => simp [setKey, lookupKey]
  | cons p rest ih =>
    obtain ⟨k2, v2⟩ := p
    cases h : (k2 == k) with
    | true => simp [setKey, lookupKey, h]
    | false => simp [setKey, lookupKey, h, ih]

/-- Assignment to one key leaves lookups of a different key unchanged. -/
lemma lookupKey_setKey_ne (fs : List (String × PyValue)) (k k' : String)
    (v : PyValue) (h : k' ≠ k) :
    lookupKey (setKey fs k v) k' = lookupKey fs k' := by
  induction fs with
  | nil => simp [setKey, lookupKey, beq_eq_false_iff_ne.mpr (Ne.symm h)]
  | cons p rest ih =>
    obtain ⟨k2, v2⟩ := p
    cases hk : (k2 == k) with
    | true =>
      have hkk : k2 = k := eq_of_beq hk
      have h2 : (k2 == k') = false := by
        rw [hkk]
        exact beq_eq_false_iff_ne.mpr (Ne.symm h)
      simp [setKey, lookupKey, hk, h2]
    | false => simp [setKey, lookupKey, hk, ih]

/-- A normalized timedelta reconstructs the exact microsecond difference of
the two datetimes it came from. -/
lemma totalMicro_sub (a b : PyDatetime) :
    (subDatetime a b).totalMicroseconds
      = datetimeTotalMicroseconds a - datetimeTotalMicroseconds b := by
  simp only [subDatetime, Timedelta.totalMicroseconds]
  omega

/-! ## C1: response-envelope unwrapping -/

/-- C1: for every vendor method name and decoded JSON response object `r`,
`Client._request`'s normalization returns the inner `"data"` payload when
both wrapping keys are present, the `"<Method>Result"` object when it lacks
`"data"`, and `r` itself when the wrapper key is absent. -/
theorem claim1_unwrap_envelope (method : String) (fs : List (String × PyValue)) :
    (∀ ifs d, lookupKey fs (method ++ "Result") = some (.dict ifs) →
      lookupKey ifs "data" = some d →
      unwrapResponse method (.dict fs) = .ok d) ∧
    (∀ ifs, lookupKey fs (method ++ "Result") = some (.dict ifs) →
      lookupKey ifs "data" = Option.none →
      unwrapResponse method (.dict fs) = .ok (.dict ifs)) ∧
    (lookupKey fs (method ++ "Result") = Option.none →
      unwrapResponse method (.dict fs) = .ok (.dict fs)) := by
  refine ⟨?_, ?_, ?_⟩
  · intro ifs d h1 h2
    simp [unwrapResponse, pyContains, pyGetItem, hasKey_eq_isSome, h1, h2]
  · intro ifs h1 h2
    simp [unwrapResponse, pyContains, pyGetItem, hasKey_eq_isSome, h1, h2]
  · intro h1
    simp [unwrapResponse, pyContains, pyGetItem, hasKey_eq_isSome, h1]

/-- Witness for C1: the three envelope shapes at concrete inputs. -/
theorem claim1_unwrap_envelope_witness :
    unwrapResponse "Foo" (.dict [("FooResult", .dict [("data", .int 7)])])
      = .ok (.int 7) ∧
    unwrapResponse "Foo" (.dict [("FooResult", .dict [("x", .int 1)])])
      = .ok (.dict [("x", .int 1)]) ∧
    unwrapResponse "Foo" (.dict [("other", .int 0)])
      = .ok (.dict [("other", .int 0)]) :=
  ⟨(claim1_unwrap_envelope "Foo" _).1 _ _ rfl rfl,
   (claim1_unwrap_envelope "Foo" _).2.1 _ rfl rfl,
   (claim1_unwrap_envelope "Foo" _).2.2 rfl⟩

/-! ## C7: domain errors are returned, not raised -/

/-- C7: when the transport succeeds and the decoded `airport_info` response
is an object carrying an `"error"` key and no `"AirportInfoResult"` wrapper,
the client returns the object unchanged; no exception is raised. -/
theorem claim7_airport_info_error_passthrough (s : ClientState)
    (airport : PyValue) (fs : List (String × PyValue))
    (herr : hasKey fs "error" = true)
    (hwrap : hasKey fs "AirportInfoResult" = false) :
    (Client.airport_info s airport (.dict fs)).outcome = .ok (.dict fs) := by
  simp [Client.airport_info, Client.simpleCall, Client._request,
    unwrapResponse, pyContains, hwrap]

/-- Witness for C7 at a concrete error response. -/
theorem claim7_airport_info_error_passthrough_witness :
    hasKey [("error", PyValue.str "INVALID")] "error" = true ∧
    hasKey [("error", PyValue.str "INVALID")] "AirportInfoResult" = false ∧
    (Client.airport_info ⟨"user", "key"⟩ (.str "KasdfBNA")
      (.dict [("error", PyValue.str "INVALID")])).outcome
      = .ok (.dict [("error", PyValue.str "INVALID")]) :=
  ⟨rfl, rfl, claim7_airport_info_error_passthrough _ _ _ rfl rfl⟩

/-! ## C9: totality shape of to_unix_timestamp -/

/-- Round-half-even division returns the exact quotient when it is an
integer. -/
lemma rhe_exact (p q : Nat) (hq : q ≠ 0) (h : p % q = 0) : rhe p q = p / q := by
  have hq0 : 0 < q := Nat.pos_of_ne_zero hq
  simp [rhe, h, hq0]

/-- Both truncation branches of the float pipeline return `K` when applied
to the numerator `K * 10^6`, whatever exponent `e ≤ 52` was selected. -/
lemma floatTrunc_branches (K : Nat) (e : Int) (he : e ≤ 52) :
    (if 52 ≤ e then
        rhe (K * 1000000) (1000000 * 2 ^ (e - 52).toNat) * 2 ^ (e - 52).toNat
      else
        rhe (K * 1000000 * 2 ^ (52 - e).toNat) 1000000 / 2 ^ (52 - e).toNat)
      = K := by
  split
  · rename_i h52
    have h0 : (e - 52).toNat = 0 := by omega
    rw [h0, pow_zero, Nat.mul_one, Nat.mul_one,
      rhe_exact _ _ (by norm_num) (Nat.mul_mod_left K 1000000),
      Nat.mul_div_cancel K (by norm_num)]
  · have h1 : K * 1000000 * 2 ^ (52 - e).toNat
        = K * 2 ^ (52 - e).toNat * 1000000 := by ring
    rw [h1, rhe_exact _ _ (by norm_num) (Nat.mul_mod_left _ _),
      Nat.mul_div_cancel _ (by norm_num),
      Nat.mul_div_cancel K (Nat.two_pow_pos _)]

/-- Integers below `2^53` are exactly representable doubles: the modelled
float division of `K * 10^6` by `10^6` truncates back to `K`. -/
lemma floatTruncPos_exact (K : Nat) (hK0 : K ≠ 0) (hK : K < 2 ^ 53) :
    floatTruncPos (K * 1000000) = K := by
  have hn0 : K * 1000000 ≠ 0 := Nat.mul_ne_zero hK0 (by norm_num)
  have ha : Nat.log2 (K * 1000000) < 73 := by
    rw [Nat.log2_lt hn0]
    calc K * 1000000 < 2 ^ 53 * 1000000 :=
          mul_lt_mul_of_pos_right hK (by norm_num)
      _ < 2 ^ 73 := by norm_num
  simp only [floatTruncPos]
  refine floatTrunc_branches K _ ?_
  split
  · rename_i hcond
    rcases Nat.lt_or_ge (Nat.log2 (K * 1000000)) 72 with h71 | h72
    · omega
    · have h72' : Nat.log2 (K * 1000000) = 72 := by omega
      rw [h72'] at hcond
      norm_num at hcond hK
      omega
  · omega

/-- Exactness of the full signed pipeline on integer quotients below
`2^53` in magnitude. -/
lemma intFloatDivMicros_int_exact (k : Int) (hk : k.natAbs < 2 ^ 53) :
    intFloatDivMicros (k * 1000000) = k := by
  rcases eq_or_ne k 0 with rfl | hk0
  · norm_num [intFloatDivMicros]
  · have hN0 : k * 1000000 ≠ 0 := mul_ne_zero hk0 (by norm_num)
    have hnatabs : (k * 1000000).natAbs = k.natAbs * 1000000 := by
      simp [Int.natAbs_mul]
    have hKexact : floatTruncPos ((k * 1000000).natAbs) = k.natAbs := by
      rw [hnatabs]
      exact floatTruncPos_exact _ (Int.natAbs_ne_zero.mpr hk0) hk
    simp only [intFloatDivMicros, if_neg hN0]
    split
    · rw [hKexact]
      rename_i hpos
      omega
    · rw [hKexact]
      rename_i hpos
      omega

/-- Evaluation of the float-faithful `to_unix_timestamp` on a datetime. -/
lemma to_unix_float_datetime (d : PyDatetime) :
    to_unix_timestamp_float (.datetime d)
      = .ok (.int (intFloatDivMicros (datetimeTotalMicroseconds d))) := by
  simp only [to_unix_timestamp_float, truthy, if_true, intFloatTotalSeconds]
  rw [totalMicro_sub]
  simp [datetimeTotalMicroseconds, EPOCH]

/-- C9 counterexample: at 2654-06-24 00:00:00.999999 (day offset 250000 from
the epoch, microsecond 999999) the elapsed time is 21600000000.999999
seconds, whose integer number of seconds is 21600000000; but the double
division inside `total_seconds()` rounds the quotient up to the grid point
21600000001.0, so the program returns 21600000001, not the integer number
of seconds the claim states. -/
theorem claim9_counterexample_float_rounding :
    to_unix_timestamp_float (.datetime ⟨250000, 0, 999999⟩)
      = .ok (.int 21600000001) ∧
    Int.tdiv (datetimeTotalMicroseconds ⟨250000, 0, 999999⟩) 1000000
      = 21600000000 ∧
    (21600000001 : Int) ≠ 21600000000 := by
  have hlog : Nat.log2 21600000000999999 = 54 := by
    have h1 : 54 ≤ Nat.log2 21600000000999999 :=
      (Nat.le_log2 (by norm_num)).mpr (by norm_num)
    have h2 : Nat.log2 21600000000999999 < 55 :=
      (Nat.log2_lt (by norm_num)).mpr (by norm_num)
    omega
  have hft : floatTruncPos 21600000000999999 = 21600000001 := by
    have h : floatTruncPos 21600000000999999
        = rhe (21600000000999999 * 2 ^ 18) 1000000 / 2 ^ 18 := by
      simp only [floatTruncPos, hlog]
      norm_num [show Int.toNat 18 = 18 from rfl]
    rw [h]
    norm_num [rhe]
  have hifd : intFloatDivMicros 21600000000999999 = 21600000001 := by
    norm_num [intFloatDivMicros, hft]
  refine ⟨?_, rfl, by decide⟩
  rw [to_unix_float_datetime]
  have hdtm : datetimeTotalMicroseconds ⟨250000, 0, 999999⟩
      = 21600000000999999 := by
    norm_num [datetimeTotalMicroseconds]
  rw [hdtm, hifd]

/-- C9 (amended): `to_unix_timestamp` returns `None` on every falsy input,
raises `ValueError` on every truthy non-datetime, and on a datetime returns
`int((d - EPOCH).total_seconds())` — the truncation of the IEEE-double
elapsed seconds — which equals the integer number of seconds from
1970-01-01T00:00:00 (naive) whenever the sub-second component is zero and
the magnitude stays below `2^53` seconds (as for every whole-second
datetime Python can represent). -/
theorem claim9_amended_to_unix_timestamp_totality :
    (∀ v : PyValue, truthy v = false →
      to_unix_timestamp_float v = .ok PyValue.none) ∧
    (∀ v : PyValue, truthy v = true → (∀ d : PyDatetime, v ≠ .datetime d) →
      to_unix_timestamp_float v
        = .error (.valueError "input must be of type datetime")) ∧
    (∀ d : PyDatetime, d.usec = 0 →
      (d.days * 86400 + (d.sod : Int)).natAbs < 2 ^ 53 →
      to_unix_timestamp_float (.datetime d)
        = .ok (.int (d.days * 86400 + d.sod))) := by
  refine ⟨?_, ?_, ?_⟩
  · intro v hv
    simp [to_unix_timestamp_float, hv]
  · intro v hv hnd
    cases v with
    | datetime d => exact absurd rfl (hnd d)
    | none => simp [truthy] at hv
    | bool b => simp [to_unix_timestamp_float, hv]
    | int n => simp [to_unix_timestamp_float, hv]
    | str s => simp [to_unix_timestamp_float, hv]
    | list xs => simp [to_unix_timestamp_float, hv]
    | dict fs => simp [to_unix_timestamp_float, hv]
  · intro d husec hrange
    rw [to_unix_float_datetime]
    have hdtm : datetimeTotalMicroseconds d
        = (d.days * 86400 + (d.sod : Int)) * 1000000 := by
      simp [datetimeTotalMicroseconds, husec]
    rw [hdtm, intFloatDivMicros_int_exact _ hrange]

/-- Witness for the amended C9: one falsy input, one truthy non-datetime,
one whole-second datetime in range. -/
theorem claim9_amended_to_unix_timestamp_totality_witness :
    to_unix_timestamp_float (PyValue.int 0) = .ok PyValue.none ∧
    to_unix_timestamp_float (PyValue.str "x")
      = .error (.valueError "input must be of type datetime") ∧
    to_unix_timestamp_float (PyValue.datetime ⟨1, 2, 0⟩) = .ok (.int 86402) :=
  ⟨claim9_amended_to_unix_timestamp_totality.1 _ rfl,
   claim9_amended_to_unix_timestamp_totality.2.1 _ rfl
     (fun d h => PyValue.noConfusion h),
   claim9_amended_to_unix_timestamp_totality.2.2 ⟨1, 2, 0⟩ rfl (by decide)⟩

/-! ## C2: timestamp round trip -/

/-- Evaluation of `to_unix_timestamp` on a datetime. -/
lemma to_unix_datetime (d : PyDatetime) :
    to_unix_timestamp (.datetime d)
      = .ok (.int (Int.tdiv (datetimeTotalMicroseconds d) 1000000)) := by
  simp only [to_unix_timestamp, truthy, if_true, intTotalSeconds]
  congr 2
  rw [totalMicro_sub]
  simp [datetimeTotalMicroseconds, EPOCH]

/-- C2: for a datetime with zero microseconds, converting to epoch seconds
and back reproduces the same date and time to the second, provided the
reverse conversion resolves timestamps in the same fixed UTC reference zone
the forward conversion uses (local offset identically zero). -/
theorem claim2_timestamp_roundtrip (tz : Int → Int) (d : PyDatetime)
    (hsod : d.sod < 86400) (husec : d.usec = 0) (hutc : ∀ t, tz t = 0) :
    (to_unix_timestamp (.datetime d)).bind (from_unix_timestamp tz)
      = .ok (.datetime d) := by
  rw [to_unix_datetime]
  have hsec : Int.tdiv (datetimeTotalMicroseconds d) 1000000
      = d.days * 86400 + d.sod := by
    simp only [datetimeTotalMicroseconds, husec, Nat.cast_zero, add_zero]
    exact Int.mul_tdiv_cancel _ (by norm_num)
  show from_unix_timestamp tz (.int _) = _
  simp only [from_unix_timestamp, fromtimestampInt, hutc, add_zero, hsec]
  have hd : PyDatetime.mk ((d.days * 86400 + (d.sod : Int)) / 86400)
      (((d.days * 86400 + (d.sod : Int)) % 86400).toNat) 0 = d := by
    cases d with
    | mk days sod usec =>
      simp only [PyDatetime.mk.injEq]
      simp only at hsod husec
      refine ⟨by omega, by omega, by omega⟩
  rw [hd]

/-- Witness for C2 at a concrete datetime and the UTC offset function. -/
theorem claim2_timestamp_roundtrip_witness :
    (to_unix_timestamp (.datetime ⟨12345, 678, 0⟩)).bind
        (from_unix_timestamp (fun _ => 0))
      = .ok (.datetime ⟨12345, 678, 0⟩) :=
  claim2_timestamp_roundtrip (fun _ => 0) ⟨12345, 678, 0⟩ (by decide) rfl
    (fun _ => rfl)

/-! ## C3: derived schedule fields -/

/-- A record successfully augmented by the schedules loop carries both
derived keys. -/
lemma augmentItem_keys (tz : Int → Int) (x y : PyValue)
    (h : augmentItem tz x = .ok y) :
    pvHasKey y "departure_time" = true ∧ pvHasKey y "arrival_time" = true := by
  cases x with
  | dict fs =>
    simp only [augmentItem] at h
    repeat' split at h
    all_goals cases h
    constructor
    · simp only [pvHasKey, hasKey_eq_isSome]
      rw [lookupKey_setKey_ne _ _ _ _
          (show ("departure_time" : String) ≠ "arrival_time" by decide),
        lookupKey_setKey_self]
      rfl
    · simp only [pvHasKey, hasKey_eq_isSome]
      rw [lookupKey_setKey_self]
      rfl
  | none => simp [augmentItem] at h
  | bool b => simp [augmentItem] at h
  | int n => simp [augmentItem] at h
  | str s => simp [augmentItem] at h
  | list xs => simp [augmentItem] at h
  | datetime d => simp [augmentItem] at h

/-- Every record delivered by a successful run of the schedules loop came
from a successful `augmentItem`. -/
lemma augmentAll_mem (tz : Int → Int) (items ys : List PyValue)
    (h : augmentAll tz items = .ok ys) :
    ∀ y ∈ ys, ∃ x, augmentItem tz x = .ok y := by
  induction items generalizing ys with
  | nil =>
    simp only [augmentAll] at h
    cases h
    simp
  | cons x xs ih =>
    simp only [augmentAll] at h
    cases hx : augmentItem tz x with
    | error e => rw [hx] at h; cases h
    | ok y0 =>
      rw [hx] at h
      cases hr : augmentAll tz xs with
      | error e => rw [hr] at h; cases h
      | ok ys0 =>
        rw [hr] at h
        cases h
        intro y hy
        rcases List.mem_cons.mp hy with h1 | h2
        · exact ⟨x, h1 ▸ hx⟩
        · exact ih ys0 hr y h2

/-- Every record of a successfully post-processed response carries both
derived keys. -/
lemma augmentSchedules_elems (tz : Int → Int) (results out : PyValue)
    (h : augmentSchedules tz results = .ok out) :
    ∀ item ∈ listElems out,
      pvHasKey item "departure_time" = true ∧
      pvHasKey item "arrival_time" = true := by
  cases results with
  | list items =>
    simp only [augmentSchedules] at h
    cases haug : augmentAll tz items with
    | error e => rw [haug] at h; cases h
    | ok ys =>
      rw [haug] at h
      cases h
      intro item hitem
      obtain ⟨x, hx⟩ := augmentAll_mem tz items ys haug item hitem
      exact augmentItem_keys tz x item hx
  | dict fs =>
    simp only [augmentSchedules] at h
    split at h
    · cases h
      intro item hitem
      simp [listElems] at hitem
    · cases h
  | str s =>
    simp only [augmentSchedules] at h
    split at h
    · cases h
      intro item hitem
      simp [listElems] at hitem
    · cases h
  | none => simp [augmentSchedules] at h
  | bool b => simp [augmentSchedules] at h
  | int n => simp [augmentSchedules] at h
  | datetime d => simp [augmentSchedules] at h

/-- The outcome of `airline_flight_schedules`, written as the cascade of its
three failure points. -/
lemma schedules_outcome (s : ClientState) (tz : Int → Int)
    (a b o dst al fn hm off resp : PyValue) :
    (Client.airline_flight_schedules s tz a b o dst al fn hm off resp).outcome
      = match to_unix_timestamp a with
        | .error e => .error e
        | .ok _ =>
          match to_unix_timestamp b with
          | .error e => .error e
          | .ok _ =>
            match unwrapResponse "AirlineFlightSchedules" resp with
            | .error e => .error e
            | .ok results => augmentSchedules tz results := by
  simp only [Client.airline_flight_schedules, Client._request]
  cases to_unix_timestamp a with
  | error e => rfl
  | ok sd =>
    cases to_unix_timestamp b with
    | error e => rfl
    | ok ed => rfl

/-- C3: whenever a call to `airline_flight_schedules` returns, every record
of the returned sequence that carries a raw epoch field also carries the
corresponding derived calendar field. -/
theorem claim3_schedule_derived_fields (s : ClientState) (tz : Int → Int)
    (start_date end_date origin destination airline flight_number how_many
      offset response out : PyValue)
    (h : (Client.airline_flight_schedules s tz start_date end_date origin
      destination airline flight_number how_many offset response).outcome
      = .ok out) :
    ∀ item ∈ listElems out,
      (pvHasKey item "departuretime" = true →
        pvHasKey item "departure_time" = true) ∧
      (pvHasKey item "arrivaltime" = true →
        pvHasKey item "arrival_time" = true) := by
  rw [schedules_outcome] at h
  cases hsd : to_unix_timestamp start_date with
  | error e => rw [hsd] at h; cases h
  | ok sd =>
    rw [hsd] at h
    cases hed : to_unix_timestamp end_date with
    | error e => rw [hed] at h; cases h
    | ok ed =>
      rw [hed] at h
      cases hun : unwrapResponse "AirlineFlightSchedules" response with
      | error e => rw [hun] at h; cases h
      | ok results =>
        rw [hun] at h
        intro item hitem
        have hk := augmentSchedules_elems tz results out h item hitem
        exact ⟨fun _ => hk.1, fun _ => hk.2⟩

/-- The decoded body a sample schedules call replies with: one record with
both raw epoch fields. -/
def sampleScheduleResponse : PyValue :=
  .list [.dict [("departuretime", .int 100), ("arrivaltime", .int 200)]]

/-- The sample record after the loop derived both calendar fields. -/
def sampleAugmented : PyValue :=
  .dict [("departuretime", .int 100), ("arrivaltime", .int 200),
    ("departure_time", .datetime ⟨0, 100, 0⟩),
    ("arrival_time", .datetime ⟨0, 200, 0⟩)]

/-- Witness for C3 at a concrete call. -/
theorem claim3_schedule_derived_fields_witness :
    pvHasKey sampleAugmented "departure_time" = true ∧
    pvHasKey sampleAugmented "arrival_time" = true :=
  ⟨(claim3_schedule_derived_fields ⟨"user", "key"⟩ (fun _ => 0)
      (.datetime ⟨19000, 0, 0⟩) (.datetime ⟨19001, 0, 0⟩) PyValue.none
      PyValue.none PyValue.none PyValue.none (.int 15) (.int 0)
      sampleScheduleResponse (.list [sampleAugmented]) rfl
      sampleAugmented (List.Mem.head _)).1 rfl,
   (claim3_schedule_derived_fields ⟨"user", "key"⟩ (fun _ => 0)
      (.datetime ⟨19000, 0, 0⟩) (.datetime ⟨19001, 0, 0⟩) PyValue.none
      PyValue.none PyValue.none PyValue.none (.int 15) (.int 0)
      sampleScheduleResponse (.list [sampleAugmented]) rfl
      sampleAugmented (List.Mem.head _)).2 rfl⟩

/-! ## C5: unimplemented operations -/

/-- C5: every declared-but-unimplemented operation deterministically raises
`NotImplementedError` and performs no HTTP request. -/
theorem claim5_stubs_not_implemented :
    (∀ s, (Client.decode_flight_route s).outcome = .error .notImplementedError ∧
      (Client.decode_flight_route s).requests = []) ∧
    (∀ s, (Client.decode_route s).outcome = .error .notImplementedError ∧
      (Client.decode_route s).requests = []) ∧
    (∀ s a hm f o, (Client.arrived s a hm f o).outcome
        = .error .notImplementedError ∧
      (Client.arrived s a hm f o).requests = []) ∧
    (∀ s a hm f o, (Client.departed s a hm f o).outcome
        = .error .notImplementedError ∧
      (Client.departed s a hm f o).requests = []) ∧
    (∀ s, (Client.enroute s).outcome = .error .notImplementedError ∧
      (Client.enroute s).requests = []) ∧
    (∀ s, (Client.fleet_arrived s).outcome = .error .notImplementedError ∧
      (Client.fleet_arrived s).requests = []) ∧
    (∀ s, (Client.fleet_scheduled s).outcome = .error .notImplementedError ∧
      (Client.fleet_scheduled s).requests = []) ∧
    (∀ s i hm, (Client.flight_info s i hm).outcome
        = .error .notImplementedError ∧
      (Client.flight_info s i hm).requests = []) ∧
    (∀ s, (Client.flight_info_ex s).outcome = .error .notImplementedError ∧
      (Client.flight_info_ex s).requests = []) ∧
    (∀ s, (Client.get_historical_track s).outcome
        = .error .notImplementedError ∧
      (Client.get_historical_track s).requests = []) ∧
    (∀ s, (Client.get_last_track s).outcome = .error .notImplementedError ∧
      (Client.get_last_track s).requests = []) ∧
    (∀ s, (Client.inbound_flight_info s).outcome
        = .error .notImplementedError ∧
      (Client.inbound_flight_info s).requests = []) ∧
    (∀ s, (Client.in_flight_info s).outcome = .error .notImplementedError ∧
      (Client.in_flight_info s).requests = []) ∧
    (∀ s, (Client.lat_lng_to_distance s).outcome
        = .error .notImplementedError ∧
      (Client.lat_lng_to_distance s).requests = []) ∧
    (∀ s, (Client.lat_lng_to_heading s).outcome
        = .error .notImplementedError ∧
      (Client.lat_lng_to_heading s).requests = []) ∧
    (∀ s, (Client.map_flight s).outcome = .error .notImplementedError ∧
      (Client.map_flight s).requests = []) ∧
    (∀ s, (Client.map_flight_ex s).outcome = .error .notImplementedError ∧
      (Client.map_flight_ex s).requests = []) ∧
    (∀ s, (Client.routes_between_airports s).outcome
        = .error .notImplementedError ∧
      (Client.routes_between_airports s).requests = []) ∧
    (∀ s, (Client.routes_between_airports_ex s).outcome
        = .error .notImplementedError ∧
      (Client.routes_between_airports_ex s).requests = []) ∧
    (∀ s, (Client.scheduled s).outcome = .error .notImplementedError ∧
      (Client.scheduled s).requests = []) ∧
    (∀ s, (Client.search s).outcome = .error .notImplementedError ∧
      (Client.search s).requests = []) ∧
    (∀ s, (Client.search_birdseye_in_flight s).outcome
        = .error .notImplementedError ∧
      (Client.search_birdseye_in_flight s).requests = []) ∧
    (∀ s, (Client.search_birdseye_positions s).outcome
        = .error .notImplementedError ∧
      (Client.search_birdseye_positions s).requests = []) ∧
    (∀ s, (Client.search_count s).outcome = .error .notImplementedError ∧
      (Client.search_count s).requests = []) ∧
    (∀ s, (Client.set_maximum_result_sizes s).outcome
        = .error .notImplementedError ∧
      (Client.set_maximum_result_sizes s).requests = []) ∧
    (∀ s, (Client.get_alerts s).outcome = .error .notImplementedError ∧
      (Client.get_alerts s).requests = []) ∧
    (∀ s, (Client.delete_alert s).outcome = .error .notImplementedError ∧
      (Client.delete_alert s).requests = []) ∧
    (∀ s, (Client.set_alert s).outcome = .error .notImplementedError ∧
      (Client.set_alert s).requests = []) ∧
    (∀ s, (Client.register_alert_endpoint s).outcome
        = .error .notImplementedError ∧
      (Client.register_alert_endpoint s).requests = []) := by
  refine ⟨?_, ?_, ?_, ?_, ?_, ?_, ?_, ?_, ?_, ?_, ?_, ?_, ?_, ?_, ?_, ?_,
    ?_, ?_, ?_, ?_, ?_, ?_, ?_, ?_, ?_, ?_, ?_, ?_, ?_⟩ <;>
    intros <;> exact ⟨rfl, rfl⟩

/-! ## C8: no client-state mutation -/

/-- The state after a `get_flight_id` call, in both of its branches. -/
lemma get_flight_id_state (s : ClientState) (i dd r : PyValue) :
    (Client.get_flight_id s i dd r).state = s := by
  simp only [Client.get_flight_id]
  cases to_unix_timestamp dd with
  | error e => rfl
  | ok ts => rfl

/-- The state after an `airline_flight_schedules` call, in all branches. -/
lemma schedules_state (s : ClientState) (tz : Int → Int)
    (a b o dst al fn hm off resp : PyValue) :
    (Client.airline_flight_schedules s tz a b o dst al fn hm off resp).state
      = s := by
  simp only [Client.airline_flight_schedules]
  cases to_unix_timestamp a with
  | error e => rfl
  | ok sd =>
    cases to_unix_timestamp b with
    | error e => rfl
    | ok ed => rfl

/-- C8: no implemented operation mutates the client: the state (hence the
credential pair, and with it the derived auth header) and the construction
headers are the same after any call, so two calls on the same client see
identical credentials and headers. -/
theorem claim8_no_state_mutation :
    (∀ s a r, (Client.aircraft_type s a r).state = s) ∧
    (∀ s a r, (Client.airline_flight_info s a r).state = s) ∧
    (∀ s tz a b o dst al fn hm off resp,
      (Client.airline_flight_schedules s tz a b o dst al fn hm off
        resp).state = s) ∧
    (∀ s a r, (Client.airline_info s a r).state = s) ∧
    (∀ s a b c r, (Client.airline_insight s a b c r).state = s) ∧
    (∀ s a r, (Client.airport_info s a r).state = s) ∧
    (∀ s r, (Client.all_airlines s r).state = s) ∧
    (∀ s r, (Client.all_airports s r).state = s) ∧
    (∀ s a r, (Client.block_indent_check s a r).state = s) ∧
    (∀ s a r, (Client.count_airport_operations s a r).state = s) ∧
    (∀ s r, (Client.count_all_enroute_airline_operations s r).state = s) ∧
    (∀ s i dd r, (Client.get_flight_id s i dd r).state = s) ∧
    (∀ s a r, (Client.metar s a r).state = s) ∧
    (∀ s a r, (Client.metar_ex s a r).state = s) ∧
    (∀ s a r, (Client.ntaf s a r).state = s) ∧
    (∀ s a r, (Client.taf s a r).state = s) ∧
    (∀ s a r, (Client.tail_owner s a r).state = s) ∧
    (∀ s a r, (Client.zipcode_info s a r).state = s) ∧
    (∀ s : ClientState, Client.auth s = ⟨s.username, s.api_key⟩) ∧
    (Client.headers = [("Content-Type", "application/x-www-form-urlencoded")]) := by
  refine ⟨?_, ?_, ?_, ?_, ?_, ?_, ?_, ?_, ?_, ?_, ?_, ?_, ?_, ?_, ?_, ?_,
    ?_, ?_, ?_, ?_⟩ <;> intros <;>
    first
    | rfl
    | apply schedules_state
    | apply get_flight_id_state

/-! ## C10: taf and ntaf coincide -/

/-- C10: `taf` and `ntaf` are extensionally equal: same request body, same
vendor endpoint `NTaf`, hence the same observable behavior on every input. -/
theorem claim10_taf_ntaf_equiv :
    ∀ (s : ClientState) (airport response : PyValue),
      Client.taf s airport response = Client.ntaf s airport response ∧
      (Client.taf s airport response).requests.map Request.url
        = [BASE_URL ++ "NTaf"] :=
  fun s airport response => ⟨rfl, rfl⟩

/-! ## C6: wire protocol -/

/-- C6 counterexample: `taf` does not post to `.../Taf`; it posts to
`.../NTaf` (client.py line 387). -/
theorem claim6_counterexample_taf_endpoint :
    (Client.taf ⟨"user", "key"⟩ (.str "BNA") PyValue.none).requests.map
        Request.url
      = [BASE_URL ++ "NTaf"] ∧
    BASE_URL ++ "NTaf" ≠ BASE_URL ++ "Taf" :=
  ⟨rfl, by decide⟩

/-- C6 (amended): every implemented operation issues exactly one HTTP POST,
to the base URL concatenated with the vendor method name the code uses
(`taf` sharing `ntaf`'s endpoint `NTaf`), with the form-urlencoded content
type and basic auth built from the stored username and API key. -/
theorem claim6_amended_wire_protocol :
    (∀ s a r, (Client.aircraft_type s a r).requests
      = [vendorRequest s "AircraftType" (some [("type", a)])]) ∧
    (∀ s a r, (Client.airline_flight_info s a r).requests
      = [vendorRequest s "AirlineFlightInfo" (some [("faFlightID", a)])]) ∧
    (∀ s tz d1 d2 o dst al fn hm off resp,
      (Client.airline_flight_schedules s tz (.datetime d1) (.datetime d2) o
        dst al fn hm off resp).requests
      = [vendorRequest s "AirlineFlightSchedules" (some
          [("startDate", .int (intTotalSeconds (subDatetime d1 EPOCH))),
           ("endDate", .int (intTotalSeconds (subDatetime d2 EPOCH))),
           ("origin", o), ("destination", dst), ("airline", al),
           ("flightno", fn), ("howMany", hm), ("offset", off)])]) ∧
    (∀ s a r, (Client.airline_info s a r).requests
      = [vendorRequest s "AirlineInfo" (some [("airlineCode", a)])]) ∧
    (∀ s a b c r, (Client.airline_insight s a b c r).requests
      = [vendorRequest s "AirlineInsight" (some
          [("origin", a), ("destination", b), ("reportType", c)])]) ∧
    (∀ s a r, (Client.airport_info s a r).requests
      = [vendorRequest s "AirportInfo" (some [("airportCode", a)])]) ∧
    (∀ s r, (Client.all_airlines s r).requests
      = [vendorRequest s "AllAirlines" Option.none]) ∧
    (∀ s r, (Client.all_airports s r).requests
      = [vendorRequest s "AllAirports" Option.none]) ∧
    (∀ s a r, (Client.block_indent_check s a r).requests
      = [vendorRequest s "BlockIdentCheck" (some [("ident", a)])]) ∧
    (∀ s a r, (Client.count_airport_operations s a r).requests
      = [vendorRequest s "CountAirportOperations" (some [("airport", a)])]) ∧
    (∀ s r, (Client.count_all_enroute_airline_operations s r).requests
      = [vendorRequest s "CountAllEnrouteAirlineOperations" Option.none]) ∧
    (∀ s i dd r, (Client.get_flight_id s i (.datetime dd) r).requests
      = [vendorRequest s "GetFlightID" (some [("ident", i),
          ("departureTime", .int (intTotalSeconds (subDatetime dd EPOCH)))])]) ∧
    (∀ s a r, (Client.metar s a r).requests
      = [vendorRequest s "Metar" (some [("airport", a)])]) ∧
    (∀ s a r, (Client.metar_ex s a r).requests
      = [vendorRequest s "MetarEx" (some [("airport", a)])]) ∧
    (∀ s a r, (Client.ntaf s a r).requests
      = [vendorRequest s "NTaf" (some [("airport", a)])]) ∧
    (∀ s a r, (Client.taf s a r).requests
      = [vendorRequest s "NTaf" (some [("airport", a)])]) ∧
    (∀ s a r, (Client.tail_owner s a r).requests
      = [vendorRequest s "TailOwner" (some [("ident", a)])]) ∧
    (∀ s a r, (Client.zipcode_info s a r).requests
      = [vendorRequest s "ZipcodeInfo" (some [("zipcode", a)])]) := by
  refine ⟨?_, ?_, ?_, ?_, ?_, ?_, ?_, ?_, ?_, ?_, ?_, ?_, ?_, ?_, ?_, ?_,
    ?_, ?_⟩ <;> intros <;> rfl

/-! ## C4: how_many is passed through, not validated -/

/-- C4 counterexample: a request for 16 records (over the documented limit
of 15, with `set_maximum_result_sizes` an unimplemented stub) is neither
rejected nor truncated: the POST is issued carrying `howMany = 16` and the
call completes normally. -/
theorem claim4_counterexample_how_many_not_enforced :
    (Client.airline_flight_schedules ⟨"user", "key"⟩ (fun _ => 0)
      (.datetime ⟨19000, 0, 0⟩) (.datetime ⟨19001, 0, 0⟩) PyValue.none
      PyValue.none PyValue.none PyValue.none (.int 16) (.int 0)
      (.list [])).requests.map
        (fun r => r.data.map (fun dl => lookupKey dl "howMany"))
      = [some (some (PyValue.int 16))] ∧
    (Client.airline_flight_schedules ⟨"user", "key"⟩ (fun _ => 0)
      (.datetime ⟨19000, 0, 0⟩) (.datetime ⟨19001, 0, 0⟩) PyValue.none
      PyValue.none PyValue.none PyValue.none (.int 16) (.int 0)
      (.list [])).outcome = .ok (.list []) ∧
    (16 : Int) > MAX_RECORD_LENGTH :=
  ⟨rfl, rfl, by decide⟩

/-- C4 (amended): `airline_flight_schedules` performs no client-side check
of `how_many`: for any requested record count (over the limit or not) the
single issued request carries `howMany` exactly as passed; enforcement of
the 15-record limit is left to the server. -/
theorem claim4_amended_how_many_passthrough (s : ClientState)
    (tz : Int → Int) (d1 d2 : PyDatetime)
    (origin destination airline flight_number how_many offset response :
      PyValue) :
    (Client.airline_flight_schedules s tz (.datetime d1) (.datetime d2)
      origin destination airline flight_number how_many offset
      response).requests.map
        (fun r => r.data.map (fun dl => lookupKey dl "howMany"))
      = [some (some how_many)] :=
  rfl

end Flightaware
